import Mathlib

/-!
A shallow embedding of `src/project_marmiton.py`.

An HTML document is modelled as the list of its element nodes in document
(pre-)order; `requests.get` composed with HTML parsing is abstracted into a
function `fetch : String → Doc` passed as a parameter.  The BeautifulSoup
lookups `find`, `find_next` and `find_all` become first-index searches over
that list: `find` is the first matching index, `find_next` after index `i`
is the first matching index strictly greater than `i` (in a pre-order
flattening the descendants of a node follow it, matching BeautifulSoup's
document-order traversal), and `find_all` is the increasing list of all
matching indices.  A Python exception (attribute access on the result of a
failed lookup, indexing an empty list) is modelled by `Option`: the whole
computation yields `none` exactly where the Python run raises.
-/

namespace Marmiton

/-- An HTML element: tag name, the literal value of its class attribute
(`""` when absent), the `href` attribute if any, the `data-name` attribute
if any, and its text content (the text BeautifulSoup would report). -/
structure Element where
  tag : String
  classAttr : String
  href : Option String
  dataName : Option String
  text : String
deriving DecidableEq, Inhabited

/-- A document: its elements in document (pre-)order. -/
abbrev Doc := List Element

/-- Worker for `splitWS`: `acc` holds the reversed characters of the token
being read. -/
def splitWSAux : List Char → List Char → List String
  | [], acc => if acc.isEmpty then [] else [String.mk acc.reverse]
  | c :: cs, acc =>
      if c.isWhitespace then
        (if acc.isEmpty then [] else [String.mk acc.reverse]) ++ splitWSAux cs []
      else splitWSAux cs (c :: acc)

/-- Python `str.split()` with no argument: split on runs of whitespace and
drop empty pieces. Also used to read a class attribute as a class list. -/
def splitWS (s : String) : List String := splitWSAux s.data []

/-- Python `str.strip()`: drop leading and trailing whitespace. -/
def strip (s : String) : String :=
  String.mk (((s.data.dropWhile Char.isWhitespace).reverse.dropWhile
    Char.isWhitespace).reverse)

/-- BeautifulSoup `class_=query` matching: a single-word query matches any
element whose class list contains it; a multi-word query matches only the
exact literal class attribute value. -/
def classMatch (query attr : String) : Bool :=
  match splitWS query with
  | [q] => (splitWS attr).contains q
  | _ => query == attr

/-- `soup.find_all('a', class_='recipe-card-link')` element predicate. -/
def isRecipeCardLink (e : Element) : Bool :=
  e.tag == "a" && classMatch "recipe-card-link" e.classAttr

/-- `soup.find('h1')` element predicate. -/
def isH1 (e : Element) : Bool := e.tag == "h1"

/-- `soup.find('span', class_="recipe-header__rating-text")` predicate. -/
def isRatingSpan (e : Element) : Bool :=
  e.tag == "span" && classMatch "recipe-header__rating-text" e.classAttr

/-- `soup.find('i', class_='icon icon-icon_comment')` predicate. -/
def isCommentIcon (e : Element) : Bool :=
  e.tag == "i" && classMatch "icon icon-icon_comment" e.classAttr

/-- `find_next('a', href="#topReviewsTitle")` predicate. -/
def isReviewsAnchor (e : Element) : Bool :=
  e.tag == "a" && e.href == some "#topReviewsTitle"

/-- `soup.find('i', class_='icon icon-difficulty')` predicate. -/
def isDifficultyIcon (e : Element) : Bool :=
  e.tag == "i" && classMatch "icon icon-difficulty" e.classAttr

/-- `soup.find('i', class_='icon icon-timer1')` predicate. -/
def isTimerIcon (e : Element) : Bool :=
  e.tag == "i" && classMatch "icon icon-timer1" e.classAttr

/-- `find_next('span')` predicate (tag only, no class filter). -/
def isSpan (e : Element) : Bool := e.tag == "span"

/-- `soup.find_all('div', class_='card-ingredient', attrs=\x7b'data-name': True\x7d)`
predicate: an ingredient card div carrying a data-name attribute. -/
def isIngredientCard (e : Element) : Bool :=
  e.tag == "div" && classMatch "card-ingredient" e.classAttr && e.dataName.isSome

/-- `find_next('span', class_='count')` predicate. -/
def isCountSpan (e : Element) : Bool :=
  e.tag == "span" && classMatch "count" e.classAttr

/-- First index `≥ start` whose element satisfies `p` (document order).
`find` is `findIdxFrom p doc 0`; `find_next` after `i` is
`findIdxFrom p doc (i+1)`. -/
def findIdxFrom (p : Element → Bool) (doc : Doc) (start : Nat) : Option Nat :=
  match (doc.drop start).findIdx? p with
  | some j => some (start + j)
  | none => none

/-- All indices whose element satisfies `p`, in increasing (document) order:
BeautifulSoup `find_all`. -/
def findAllIdx (p : Element → Bool) (doc : Doc) : List Nat :=
  (List.range doc.length).filter (fun i => p (doc.getD i default))

/-- The text of the element at index `i` (the indices we use always come
from a successful lookup, hence are in bounds). -/
def textAt (doc : Doc) (i : Nat) : String := (doc.getD i default).text

/-- `scrape_recipe_links` (src lines 5-33) applied to the already fetched
listing page: collect, by appending in a loop, `link.get('href')` of every
anchor with class `recipe-card-link`.  A missing href is `none`. -/
def scrape_recipe_links (doc : Doc) : List (Option String) :=
  (findAllIdx isRecipeCardLink doc).foldl
    (fun links i => links ++ [(doc.getD i default).href]) []

/-- The three listing URL constants of `create_database` (src lines 164-166),
also the literals tested by `recipe_type` (src lines 46-48). -/
def url_entree : String :=
  "https://www.marmiton.org/recettes/top-internautes-entree.aspx"

/-- The main-course listing URL constant. -/
def url_plat : String :=
  "https://www.marmiton.org/recettes/top-internautes-plat-principal.aspx"

/-- The dessert listing URL constant. -/
def url_dessert : String :=
  "https://www.marmiton.org/recettes/top-internautes-dessert.aspx"

/-- `recipe_type` (src lines 35-48): three guarded returns, implicit Python
`None` when no guard fires. -/
def recipe_type (url : String) : Option String :=
  if url = url_entree then some "entree"
  else if url = url_plat then some "plat"
  else if url = url_dessert then some "dessert"
  else none

/-- The tuple returned by `scrape_recipe_data` (src line 102). -/
structure RecipeData where
  name : String
  rate : String
  comments : String
  difficulty : String
  timer : String
  ingredients : List (String × String)
deriving DecidableEq, Inhabited

/-- Python dict assignment `d[k] = v` on an insertion-ordered association
list: an existing key keeps its position and gets the new value, a fresh key
is appended. -/
def assocInsert : List (String × String) → String → String → List (String × String)
  | [], k, v => [(k, v)]
  | (k₀, v₀) :: rest, k, v =>
      if k₀ = k then (k, v) :: rest else (k₀, v₀) :: assocInsert rest k v

/-- `tag.find_next('span', class_='count').text.strip()` for the ingredient
card at index `i` (src lines 98-99): `none` models the AttributeError raised
when no count span follows. -/
def quantityAt (doc : Doc) (i : Nat) : Option String :=
  (findIdxFrom isCountSpan doc (i + 1)).map (fun qi => strip (textAt doc qi))

/-- The ingredient loop of `scrape_recipe_data` (src lines 94-100): for each
ingredient card index, read its data-name attribute (KeyError as `none`) and
the next count span's trimmed text, and store them dict-style into `acc`. -/
def buildIngredients (doc : Doc) : List Nat → List (String × String) →
    Option (List (String × String))
  | [], acc => some acc
  | i :: rest, acc =>
      ((doc.getD i default).dataName).bind fun name =>
      (quantityAt doc i).bind fun q =>
      buildIngredients doc rest (assocInsert acc name q)

/-- `soup.find('h1')` index (src line 75). -/
def h1Idx (doc : Doc) : Option Nat := findIdxFrom isH1 doc 0

/-- Rating span index (src line 78). -/
def ratingIdx (doc : Doc) : Option Nat := findIdxFrom isRatingSpan doc 0

/-- Comment icon index (src line 81). -/
def commentIconIdx (doc : Doc) : Option Nat := findIdxFrom isCommentIcon doc 0

/-- Comment icon, then `find_next('a', href="#topReviewsTitle")`
(src lines 81-82). -/
def reviewsAnchorIdx (doc : Doc) : Option Nat :=
  (commentIconIdx doc).bind fun ci => findIdxFrom isReviewsAnchor doc (ci + 1)

/-- Difficulty icon index (src line 86). -/
def difficultyIconIdx (doc : Doc) : Option Nat :=
  findIdxFrom isDifficultyIcon doc 0

/-- Difficulty icon, then `find_next('span')` (src lines 86-87). -/
def difficultySpanIdx (doc : Doc) : Option Nat :=
  (difficultyIconIdx doc).bind fun di => findIdxFrom isSpan doc (di + 1)

/-- Timer icon index (src line 90). -/
def timerIconIdx (doc : Doc) : Option Nat := findIdxFrom isTimerIcon doc 0

/-- Timer icon, then `find_next('span')` (src lines 90-91). -/
def timerSpanIdx (doc : Doc) : Option Nat :=
  (timerIconIdx doc).bind fun ti => findIdxFrom isSpan doc (ti + 1)

/-- `scrape_recipe_data` (src lines 51-102) applied to the already fetched
detail page, with the lookups sequenced exactly as in the source (name,
rating, comments, difficulty, timer, ingredients); every failed lookup is an
unhandled AttributeError, i.e. `none`. -/
def scrape_recipe_data (doc : Doc) : Option RecipeData :=
  (h1Idx doc).bind fun hi =>
  (ratingIdx doc).bind fun ri =>
  (reviewsAnchorIdx doc).bind fun ai =>
  (difficultySpanIdx doc).bind fun dsi =>
  (timerSpanIdx doc).bind fun tsi =>
  (buildIngredients doc (findAllIdx isIngredientCard doc) []).map fun ing =>
    ⟨strip (textAt doc hi), strip (textAt doc ri), strip (textAt doc ai),
     strip (textAt doc dsi), strip (textAt doc tsi), ing⟩

/-- One row of the dataframe built by `scrape_recipes_info`
(src lines 125-134); the dict keys, in insertion order, are Recipe Type,
Recipe Name, Rating, Comments, Difficulty, Timer, Ingredients, URL.  The
recipe type is stored as passed, so it is an `Option String` because
`recipe_type` can return `None`. -/
structure RecipeRow where
  recipeType : Option String
  name : String
  rating : String
  comments : String
  difficulty : String
  timer : String
  ingredients : List (String × String)
  url : String
deriving DecidableEq, Inhabited

/-- `scrape_recipes_info` (src lines 104-138): iterate the url list in
order; `requests.get(None)` raises (a `none` url fails), each page runs
`scrape_recipe_data`, and `recipe_comments.split()[0]` raises IndexError on
an empty token list (the `[0]?` bind). -/
def scrape_recipes_info (fetch : String → Doc) :
    List (Option String) → Option String → Option (List RecipeRow)
  | [], _ => some []
  | u? :: rest, rt =>
      u?.bind fun u =>
      (scrape_recipe_data (fetch u)).bind fun rd =>
      ((splitWS rd.comments)[0]?).bind fun c =>
      (scrape_recipes_info fetch rest rt).map fun rows =>
        ⟨rt, rd.name, rd.rate, c, rd.difficulty, rd.timer, rd.ingredients, u⟩ :: rows

/-- `append_dataframes` (src lines 140-153): `pd.concat` with
`ignore_index=True` is list concatenation with a fresh 0-based index. -/
def append_dataframes (dfs : List (List RecipeRow)) : List RecipeRow := dfs.flatten

/-- `create_database` (src lines 155-176): scrape the three listings in the
fixed order entree, plat, dessert and concatenate the three batches. -/
def create_database (fetch : String → Doc) : Option (List RecipeRow) :=
  (scrape_recipes_info fetch (scrape_recipe_links (fetch url_entree))
      (recipe_type url_entree)).bind fun df_entree =>
  (scrape_recipes_info fetch (scrape_recipe_links (fetch url_plat))
      (recipe_type url_plat)).bind fun df_plat =>
  (scrape_recipes_info fetch (scrape_recipe_links (fetch url_dessert))
      (recipe_type url_dessert)).map fun df_dessert =>
  append_dataframes [df_entree, df_plat, df_dessert]

/-- Element with only a tag, a class attribute and text. -/
def mkEl (tag classAttr text : String) : Element :=
  ⟨tag, classAttr, none, none, text⟩

/-- An anchor element with an href and text. -/
def mkAnchor (classAttr href text : String) : Element :=
  ⟨"a", classAttr, some href, none, text⟩

/-- An ingredient card div with a data-name attribute. -/
def mkIngredient (nameAttr : String) : Element :=
  ⟨"div", "card-ingredient", none, some nameAttr, ""⟩

/-- A well-formed detail page: every marker present, all texts non-empty,
one ingredient block. -/
def detailDoc : Doc :=
  [mkEl "h1" "" "Tarte",
   mkEl "span" "recipe-header__rating-text" "4.5",
   mkEl "i" "icon icon-icon_comment" "",
   mkAnchor "" "#topReviewsTitle" "42 avis publiés",
   mkEl "i" "icon icon-difficulty" "",
   mkEl "span" "" "facile",
   mkEl "i" "icon icon-timer1" "",
   mkEl "span" "" "30 min",
   mkIngredient "sucre",
   mkEl "span" "count" "100 g"]

/-- A detail page whose h1 text is whitespace only and whose two ingredient
blocks share the data-name `sucre` with different quantities. -/
def docDupIngredients : Doc :=
  [mkEl "h1" "" "   ",
   mkEl "span" "recipe-header__rating-text" "4.5",
   mkEl "i" "icon icon-icon_comment" "",
   mkAnchor "" "#topReviewsTitle" "42 avis publiés",
   mkEl "i" "icon icon-difficulty" "",
   mkEl "span" "" "facile",
   mkEl "i" "icon icon-timer1" "",
   mkEl "span" "" "30 min",
   mkIngredient "sucre",
   mkEl "span" "count" "100 g",
   mkIngredient "sucre",
   mkEl "span" "count" "200 g"]

/-- A detail page with every non-ingredient marker present, a whitespace-only
comments anchor text, and no ingredient blocks. -/
def docEmptyComments : Doc :=
  [mkEl "h1" "" "Tarte",
   mkEl "span" "recipe-header__rating-text" "4.0",
   mkEl "i" "icon icon-icon_comment" "",
   mkAnchor "" "#topReviewsTitle" "   ",
   mkEl "i" "icon icon-difficulty" "",
   mkEl "span" "" "facile",
   mkEl "i" "icon icon-timer1" "",
   mkEl "span" "" "30 min"]

/-- A detail page lacking the difficulty icon marker (everything else
present). -/
def docNoDifficulty : Doc :=
  [mkEl "h1" "" "Tarte",
   mkEl "span" "recipe-header__rating-text" "4.0",
   mkEl "i" "icon icon-icon_comment" "",
   mkAnchor "" "#topReviewsTitle" "12 avis",
   mkEl "i" "icon icon-timer1" "",
   mkEl "span" "" "30 min"]

/-- A listing page with two recipe-card anchors, one of which lacks href. -/
def listingMixed : Doc :=
  [mkAnchor "recipe-card-link" "r1" "",
   mkEl "a" "recipe-card-link" ""]

/-- Listing page with two recipe-card anchors. -/
def listingE : Doc :=
  [mkAnchor "recipe-card-link" "e1" "", mkAnchor "recipe-card-link" "e2" ""]

/-- Listing page with one recipe-card anchor. -/
def listingP : Doc := [mkAnchor "recipe-card-link" "p1" ""]

/-- Listing page with three recipe-card anchors. -/
def listingD : Doc :=
  [mkAnchor "recipe-card-link" "d1" "", mkAnchor "recipe-card-link" "d2" "",
   mkAnchor "recipe-card-link" "d3" ""]

/-- A fetch oracle serving the three listing pages and, for every other
URL, the well-formed detail page. -/
def fetchSix (u : String) : Doc :=
  if u = url_entree then listingE
  else if u = url_plat then listingP
  else if u = url_dessert then listingD
  else detailDoc

/-- All the non-ingredient lookups of `scrape_recipe_data` succeed: h1,
rating span, comment icon followed by the reviews anchor, difficulty icon
followed by a span, timer icon followed by a span. -/
def nonIngredientMarkersPresent (doc : Doc) : Bool :=
  (h1Idx doc).isSome && (ratingIdx doc).isSome && (reviewsAnchorIdx doc).isSome &&
  (difficultySpanIdx doc).isSome && (timerSpanIdx doc).isSome

/-- Every expected marker of a detail page is present: the non-ingredient
markers, and a count span after each ingredient card. -/
def allMarkersPresent (doc : Doc) : Bool :=
  nonIngredientMarkersPresent doc &&
  (findAllIdx isIngredientCard doc).all (fun i => (quantityAt doc i).isSome)

/-- The stripped text at a looked-up index is non-empty (`true` when the
lookup failed, which `allMarkersPresent` rules out). -/
def nonEmptyStripAt (doc : Doc) (o : Option Nat) : Bool :=
  o.all (fun i => strip (textAt doc i) != "")

/-- The row `fetchSix` produces for category `rt` and url `u`. -/
def rowSix (rt u : String) : RecipeRow :=
  ⟨some rt, "Tarte", "4.5", "42", "facile", "30 min", [("sucre", "100 g")], u⟩

/-- The six-row dataframe `create_database fetchSix` produces. -/
def dfSix : List RecipeRow :=
  [rowSix "entree" "e1", rowSix "entree" "e2", rowSix "plat" "p1",
   rowSix "dessert" "d1", rowSix "dessert" "d2", rowSix "dessert" "d3"]

/-! ## Helper lemmas -/

theorem bind_const_none {α β : Type} (o : Option α) :
    (o.bind fun _ => (none : Option β)) = none := by
  cases o <;> rfl

theorem foldl_append_eq_map {α β : Type} (f : α → β) :
    ∀ (l : List α) (acc : List β),
      l.foldl (fun a x => a ++ [f x]) acc = acc ++ l.map f := by
  intro l
  induction l with
  | nil => intro acc; simp
  | cons x xs ih => intro acc; simp only [List.foldl_cons, ih, List.map_cons]; simp

theorem scrape_recipe_data_inv {doc : Doc} {rd : RecipeData}
    (h : scrape_recipe_data doc = some rd) :
    ∃ hi ri ai dsi tsi ing,
      h1Idx doc = some hi ∧ ratingIdx doc = some ri ∧
      reviewsAnchorIdx doc = some ai ∧ difficultySpanIdx doc = some dsi ∧
      timerSpanIdx doc = some tsi ∧
      buildIngredients doc (findAllIdx isIngredientCard doc) [] = some ing ∧
      rd = ⟨strip (textAt doc hi), strip (textAt doc ri), strip (textAt doc ai),
            strip (textAt doc dsi), strip (textAt doc tsi), ing⟩ := by
  simp only [scrape_recipe_data, Option.bind_eq_some, Option.map_eq_some'] at h
  obtain ⟨hi, e1, ri, e2, ai, e3, dsi, e4, tsi, e5, ing, e6, hrd⟩ := h
  exact ⟨hi, ri, ai, dsi, tsi, ing, e1, e2, e3, e4, e5, e6, hrd.symm⟩

theorem scrape_recipe_data_eq_some {doc : Doc} {hi ri ai dsi tsi : Nat}
    {ing : List (String × String)}
    (e1 : h1Idx doc = some hi) (e2 : ratingIdx doc = some ri)
    (e3 : reviewsAnchorIdx doc = some ai) (e4 : difficultySpanIdx doc = some dsi)
    (e5 : timerSpanIdx doc = some tsi)
    (e6 : buildIngredients doc (findAllIdx isIngredientCard doc) [] = some ing) :
    scrape_recipe_data doc =
      some ⟨strip (textAt doc hi), strip (textAt doc ri), strip (textAt doc ai),
            strip (textAt doc dsi), strip (textAt doc tsi), ing⟩ := by
  unfold scrape_recipe_data
  rw [e1, e2, e3, e4, e5, e6]
  rfl

theorem scrape_recipes_info_shape (fetch : String → Doc) :
    ∀ (urls : List (Option String)) (rt : Option String) (rows : List RecipeRow),
      scrape_recipes_info fetch urls rt = some rows →
      rows.length = urls.length ∧
      rows.map (fun r => r.recipeType) = urls.map (fun _ => rt) ∧
      rows.map (fun r => some r.url) = urls := by
  intro urls
  induction urls with
  | nil =>
      intro rt rows h
      simp only [scrape_recipes_info, Option.some.injEq] at h
      subst h
      simp
  | cons u? rest ih =>
      intro rt rows h
      simp only [scrape_recipes_info, Option.bind_eq_some, Option.map_eq_some'] at h
      obtain ⟨u, hu, rd, hrd, c, hc, rows', hrows', hrow⟩ := h
      subst hrow
      obtain ⟨l1, l2, l3⟩ := ih rt rows' hrows'
      refine ⟨by simp [l1], by simp [l2], by simp [l3, hu.symm]⟩

theorem scrape_recipes_info_none_of_mem (fetch : String → Doc) :
    ∀ (urls : List (Option String)) (rt : Option String) (url : String),
      some url ∈ urls → scrape_recipe_data (fetch url) = none →
      scrape_recipes_info fetch urls rt = none := by
  intro urls
  induction urls with
  | nil => intro rt url hm; simp at hm
  | cons u? rest ih =>
      intro rt url hm hf
      rcases List.mem_cons.mp hm with he | ht
      · subst he
        simp [scrape_recipes_info, hf]
      · have hrec := ih rt url ht hf
        simp [scrape_recipes_info, hrec, bind_const_none]

theorem scrape_recipes_info_comments (fetch : String → Doc) :
    ∀ (urls : List (Option String)) (rt : Option String) (rows : List RecipeRow)
      (i : Nat) (u : String) (rd : RecipeData),
      scrape_recipes_info fetch urls rt = some rows →
      urls[i]? = some (some u) →
      scrape_recipe_data (fetch u) = some rd →
      (rows[i]?).map (fun r => r.comments) = (splitWS rd.comments)[0]? := by
  intro urls
  induction urls with
  | nil => intro rt rows i u rd h hi; simp at hi
  | cons u? rest ih =>
      intro rt rows i u rd h hi hrd
      simp only [scrape_recipes_info, Option.bind_eq_some, Option.map_eq_some'] at h
      obtain ⟨u', hu, rd', hrd', c, hc, rows', hrows', hrow⟩ := h
      subst hrow
      cases i with
      | zero =>
          simp only [List.getElem?_cons_zero, Option.some.injEq] at hi
          rw [hi] at hu
          have huu : u = u' := by injection hu
          subst huu
          rw [hrd] at hrd'
          have hrdeq : rd = rd' := by injection hrd'
          subst hrdeq
          simpa using hc.symm
      | succ n =>
          simp only [List.getElem?_cons_succ] at hi
          simpa using ih rt rows' n u rd hrows' hi hrd

theorem buildIngredients_some_quantities (doc : Doc) :
    ∀ (idxs : List Nat) (acc l : List (String × String)),
      buildIngredients doc idxs acc = some l →
      ∀ i ∈ idxs, (quantityAt doc i).isSome = true := by
  intro idxs
  induction idxs with
  | nil => intro acc l _ i hi; simp at hi
  | cons j rest ih =>
      intro acc l h i hi
      simp only [buildIngredients, Option.bind_eq_some] at h
      obtain ⟨d, ed, q, eq₁, h⟩ := h
      rcases List.mem_cons.mp hi with he | ht
      · subst he
        rw [eq₁]
        rfl
      · exact ih _ l h i ht

theorem allMarkersPresent_of_some {doc : Doc} {rd : RecipeData}
    (h : scrape_recipe_data doc = some rd) : allMarkersPresent doc = true := by
  obtain ⟨hi, ri, ai, dsi, tsi, ing, e1, e2, e3, e4, e5, e6, _⟩ :=
    scrape_recipe_data_inv h
  simp only [allMarkersPresent, nonIngredientMarkersPresent, Bool.and_eq_true]
  refine ⟨⟨⟨⟨⟨?_, ?_⟩, ?_⟩, ?_⟩, ?_⟩, ?_⟩
  · rw [e1]; rfl
  · rw [e2]; rfl
  · rw [e3]; rfl
  · rw [e4]; rfl
  · rw [e5]; rfl
  · rw [List.all_eq_true]
    exact fun i hmem => buildIngredients_some_quantities doc _ [] ing e6 i hmem

theorem scrape_recipe_data_none_of_missing_marker {doc : Doc}
    (h : allMarkersPresent doc = false) : scrape_recipe_data doc = none := by
  cases hs : scrape_recipe_data doc with
  | none => rfl
  | some rd =>
      rw [allMarkersPresent_of_some hs] at h
      simp at h

theorem mem_findAllIdx {p : Element → Bool} {doc : Doc} {i : Nat}
    (h : i ∈ findAllIdx p doc) : p (doc.getD i default) = true :=
  (List.mem_filter.mp h).2

theorem assocInsert_not_mem (k v : String) :
    ∀ acc : List (String × String), (∀ q ∈ acc, q.1 ≠ k) →
      assocInsert acc k v = acc ++ [(k, v)] := by
  intro acc
  induction acc with
  | nil => intro; rfl
  | cons a rest ih =>
      intro hnm
      obtain ⟨k₀, v₀⟩ := a
      have hk : k₀ ≠ k := hnm (k₀, v₀) (List.mem_cons_self _ _)
      simp only [assocInsert, if_neg hk, List.cons_append, List.cons.injEq, true_and]
      exact ih (fun q hq => hnm q (List.mem_cons_of_mem _ hq))

theorem buildIngredients_isSome (doc : Doc) :
    ∀ (idxs : List Nat) (acc : List (String × String)),
      (∀ i ∈ idxs, ((doc.getD i default).dataName).isSome ∧
        (quantityAt doc i).isSome) →
      ∃ l, buildIngredients doc idxs acc = some l := by
  intro idxs
  induction idxs with
  | nil => intro acc _; exact ⟨acc, rfl⟩
  | cons i rest ih =>
      intro acc h
      obtain ⟨hd, hq⟩ := h i (List.mem_cons_self _ _)
      obtain ⟨d, ed⟩ := Option.isSome_iff_exists.mp hd
      obtain ⟨q, eq₁⟩ := Option.isSome_iff_exists.mp hq
      obtain ⟨l, hl⟩ := ih (assocInsert acc d q)
        (fun j hj => h j (List.mem_cons_of_mem _ hj))
      refine ⟨l, ?_⟩
      simp only [buildIngredients, ed, eq₁, Option.some_bind]
      exact hl

theorem buildIngredients_len (doc : Doc) :
    ∀ (idxs : List Nat) (acc l : List (String × String)),
      buildIngredients doc idxs acc = some l →
      ((idxs.map (fun i => (doc.getD i default).dataName)).Nodup) →
      (∀ i ∈ idxs, ∀ q ∈ acc, some q.1 ≠ (doc.getD i default).dataName) →
      l.length = acc.length + idxs.length := by
  intro idxs
  induction idxs with
  | nil =>
      intro acc l h _ _
      simp only [buildIngredients, Option.some.injEq] at h
      subst h
      simp
  | cons i rest ih =>
      intro acc l h hnd hdis
      simp only [buildIngredients, Option.bind_eq_some] at h
      obtain ⟨d, ed, q, eq₁, h⟩ := h
      rw [List.map_cons] at hnd
      have hnd' := List.nodup_cons.mp hnd
      have hins : assocInsert acc d q = acc ++ [(d, q)] := by
        apply assocInsert_not_mem
        intro qq hqq heq
        exact hdis i (List.mem_cons_self _ _) qq hqq (by rw [heq, ed])
      rw [hins] at h
      have hdis' : ∀ j ∈ rest, ∀ qq ∈ acc ++ [(d, q)],
          some qq.1 ≠ (doc.getD j default).dataName := by
        intro j hj qq hqq
        rcases List.mem_append.mp hqq with hin | hlast
        · exact hdis j (List.mem_cons_of_mem _ hj) qq hin
        · have hqq' : qq = (d, q) := by simpa using hlast
          subst hqq'
          intro heq
          refine hnd'.1 ?_
          rw [ed]
          exact List.mem_map.mpr ⟨j, hj, heq.symm⟩
      have hlen := ih (acc ++ [(d, q)]) l h hnd'.2 hdis'
      rw [hlen]
      simp only [List.length_append, List.length_cons, List.length_nil]
      omega

/-- C2: for a listing page with N recipe-card anchors,
`scrape_recipe_links` returns exactly N entries, the k-th entry being the
href attribute of the k-th matching anchor in document order — in
particular an anchor lacking href contributes a `none` placeholder at its
position rather than being filtered out or failing. -/
theorem scrape_recipe_links_order_and_placeholders (doc : Doc) :
    scrape_recipe_links doc =
      (findAllIdx isRecipeCardLink doc).map (fun i => (doc.getD i default).href) ∧
    (scrape_recipe_links doc).length = (findAllIdx isRecipeCardLink doc).length ∧
    ∀ k : Nat, (scrape_recipe_links doc)[k]? =
      ((findAllIdx isRecipeCardLink doc)[k]?).map (fun i => (doc.getD i default).href) := by
  have hmap : scrape_recipe_links doc =
      (findAllIdx isRecipeCardLink doc).map (fun i => (doc.getD i default).href) := by
    unfold scrape_recipe_links
    simpa using foldl_append_eq_map (fun i => (doc.getD i default).href)
      (findAllIdx isRecipeCardLink doc) []
  refine ⟨hmap, ?_, ?_⟩
  · rw [hmap, List.length_map]
  · intro k
    rw [hmap, List.getElem?_map]

/-- C3: `recipe_type` maps each of the three listing-URL constants to its
documented label, and every other input yields no classification. -/
theorem recipe_type_closed_mapping :
    recipe_type url_entree = some "entree" ∧
    recipe_type url_plat = some "plat" ∧
    recipe_type url_dessert = some "dessert" ∧
    ∀ s : String, s ≠ url_entree → s ≠ url_plat → s ≠ url_dessert →
      recipe_type s = none := by
  refine ⟨by decide, by decide, by decide, ?_⟩
  intro s h1 h2 h3
  unfold recipe_type
  rw [if_neg h1, if_neg h2, if_neg h3]

/-- C3 witness: a concrete string outside the three constants is not
classified. -/
theorem recipe_type_closed_mapping_witness : recipe_type "x" = none :=
  recipe_type_closed_mapping.2.2.2 "x" (by decide) (by decide) (by decide)

/-- C4: a detail page whose markup lacks one of the expected markers — any
of h1, rating span, comment icon followed by the reviews anchor, difficulty
icon followed by a span, timer icon followed by a span, or a count span
after an ingredient card, i.e. `allMarkersPresent` is false — makes
`scrape_recipe_data` fail for that page with no per-field fallback, and the
failure propagates through `scrape_recipes_info`: the whole batch is `none`,
so no row (and no partial row) for any recipe appears in the output. -/
theorem missing_marker_aborts (fetch : String → Doc)
    (urls : List (Option String)) (rt : Option String) (url : String)
    (hm : some url ∈ urls) (hmark : allMarkersPresent (fetch url) = false) :
    scrape_recipe_data (fetch url) = none ∧
    scrape_recipes_info fetch urls rt = none := by
  have h1 := scrape_recipe_data_none_of_missing_marker hmark
  exact ⟨h1, scrape_recipes_info_none_of_mem fetch urls rt url hm h1⟩

/-- C4 witness: a concrete page lacking the difficulty icon marker (the
claim's exemplar) aborts both the page extraction and the whole batch. -/
theorem missing_marker_aborts_witness :
    scrape_recipe_data docNoDifficulty = none ∧
    scrape_recipes_info (fun _ => docNoDifficulty) [some "u"] (some "plat") = none :=
  missing_marker_aborts (fun _ => docNoDifficulty) [some "u"]
    (some "plat") "u" (by decide) (by decide)

/-- C5: whenever the extracted comments phrase of the recipe at position `i`
is `42 avis publiés`, the Comments value stored in the batch at that
position is exactly `42`, its first whitespace-delimited token. -/
theorem comments_first_token (fetch : String → Doc) (urls : List (Option String))
    (rt : Option String) (rows : List RecipeRow) (i : Nat) (u : String)
    (rd : RecipeData)
    (h : scrape_recipes_info fetch urls rt = some rows)
    (hi : urls[i]? = some (some u))
    (hrd : scrape_recipe_data (fetch u) = some rd)
    (hc : rd.comments = "42 avis publiés") :
    (rows[i]?).map (fun r => r.comments) = some "42" := by
  rw [scrape_recipes_info_comments fetch urls rt rows i u rd h hi hrd, hc]
  decide

/-- C5 witness: a concrete run whose page carries the phrase stores `42`. -/
theorem comments_first_token_witness :
    (([⟨some "entree", "Tarte", "4.5", "42", "facile", "30 min",
        [("sucre", "100 g")], "u"⟩] : List RecipeRow)[0]?).map
      (fun r => r.comments) = some "42" :=
  comments_first_token (fun _ => detailDoc) [some "u"] (some "entree")
    [⟨some "entree", "Tarte", "4.5", "42", "facile", "30 min",
      [("sucre", "100 g")], "u"⟩] 0 "u"
    ⟨"Tarte", "4.5", "42 avis publiés", "facile", "30 min", [("sucre", "100 g")]⟩
    (by decide) (by decide) (by decide) (by decide)

/-- C9: a concrete page on which `scrape_recipe_data` succeeds with an
empty comments field, yet `scrape_recipes_info` itself fails on
`recipe_comments.split()[0]` (indexing the empty token list), aborting the
run even though the per-page extraction succeeded. -/
theorem empty_comments_aborts_run :
    scrape_recipe_data docEmptyComments =
      some ⟨"Tarte", "4.0", "", "facile", "30 min", []⟩ ∧
    scrape_recipes_info (fun _ => docEmptyComments) [some "u"] (some "entree") =
      none := by
  decide

/-- C1: on a run in which the three listing pages yield 2, 1 and 3 recipe
links respectively and `create_database` completes, the produced table has
exactly 6 rows; the first 2 carry Recipe Type `entree`, the next 1 `plat`,
the last 3 `dessert`, and the rows' URLs are the three batches' links in
link order. -/
theorem create_database_six_rows (fetch : String → Doc) (df : List RecipeRow)
    (hle : (scrape_recipe_links (fetch url_entree)).length = 2)
    (hlp : (scrape_recipe_links (fetch url_plat)).length = 1)
    (hld : (scrape_recipe_links (fetch url_dessert)).length = 3)
    (h : create_database fetch = some df) :
    df.length = 6 ∧
    df.map (fun r => r.recipeType) =
      [some "entree", some "entree", some "plat",
       some "dessert", some "dessert", some "dessert"] ∧
    df.map (fun r => some r.url) =
      scrape_recipe_links (fetch url_entree) ++
      scrape_recipe_links (fetch url_plat) ++
      scrape_recipe_links (fetch url_dessert) := by
  simp only [create_database, Option.bind_eq_some, Option.map_eq_some'] at h
  obtain ⟨e, he, p, hp, d, hd, hdf⟩ := h
  subst hdf
  obtain ⟨le, te, ue⟩ := scrape_recipes_info_shape fetch _ _ _ he
  obtain ⟨lp, tp, up⟩ := scrape_recipes_info_shape fetch _ _ _ hp
  obtain ⟨ld, td, ud⟩ := scrape_recipes_info_shape fetch _ _ _ hd
  have rte : recipe_type url_entree = some "entree" := by decide
  have rtp : recipe_type url_plat = some "plat" := by decide
  have rtd : recipe_type url_dessert = some "dessert" := by decide
  refine ⟨?_, ?_, ?_⟩
  · simp only [append_dataframes, List.flatten, List.length_append,
      List.length_nil, le, lp, ld, hle, hlp, hld]
  · simp only [append_dataframes, List.flatten, List.map_append, List.map_nil,
      te, tp, td, rte, rtp, rtd, List.map_const']
    rw [hle, hlp, hld]
    decide
  · simp only [append_dataframes, List.flatten, List.map_append, List.map_nil,
      ue, up, ud, List.append_assoc, List.append_nil]

/-- C1 witness: a concrete fetch oracle with 2, 1 and 3 listing links. -/
theorem create_database_six_rows_witness :
    dfSix.length = 6 ∧
    dfSix.map (fun r => r.recipeType) =
      [some "entree", some "entree", some "plat",
       some "dessert", some "dessert", some "dessert"] :=
  ⟨(create_database_six_rows fetchSix dfSix (by decide) (by decide) (by decide)
      (by decide)).1,
   (create_database_six_rows fetchSix dfSix (by decide) (by decide) (by decide)
      (by decide)).2.1⟩

/-- C6: on a detail page whose two ingredient blocks share one data-name but
have different quantities, the ingredients mapping of `scrape_recipe_data`
holds the quantity of the later (document-order) block; the earlier quantity
is overwritten, with no aggregation. -/
theorem duplicate_ingredient_last_write_wins (doc : Doc) (rd : RecipeData)
    (i j : Nat) (d q₁ q₂ : String)
    (hall : findAllIdx isIngredientCard doc = [i, j])
    (hni : (doc.getD i default).dataName = some d)
    (hnj : (doc.getD j default).dataName = some d)
    (hqi : quantityAt doc i = some q₁)
    (hqj : quantityAt doc j = some q₂)
    (hne : q₁ ≠ q₂)
    (h : scrape_recipe_data doc = some rd) :
    rd.ingredients = [(d, q₂)] := by
  obtain ⟨hi, ri, ai, dsi, tsi, ing, e1, e2, e3, e4, e5, e6, hrd⟩ :=
    scrape_recipe_data_inv h
  subst hrd
  rw [hall] at e6
  simp only [buildIngredients, hni, hqi, hnj, hqj, Option.some_bind,
    assocInsert, if_pos] at e6
  have hing : [(d, q₂)] = ing := by injection e6
  exact hing.symm

/-- C6 witness: the concrete duplicate-ingredient page keeps `200 g`, the
later quantity for `sucre`. -/
theorem duplicate_ingredient_last_write_wins_witness :
    (⟨"", "4.5", "42 avis publiés", "facile", "30 min",
      [("sucre", "200 g")]⟩ : RecipeData).ingredients = [("sucre", "200 g")] :=
  duplicate_ingredient_last_write_wins docDupIngredients
    ⟨"", "4.5", "42 avis publiés", "facile", "30 min", [("sucre", "200 g")]⟩
    8 10 "sucre" "100 g" "200 g" (by decide) (by decide) (by decide) (by decide)
    (by decide) (by decide) (by decide)

/-- C10: a detail page with every non-ingredient marker present and zero
ingredient blocks does not make `scrape_recipe_data` fail: it succeeds and
returns an empty ingredients mapping. -/
theorem no_ingredient_blocks_no_failure (doc : Doc)
    (hm : nonIngredientMarkersPresent doc = true)
    (he : findAllIdx isIngredientCard doc = []) :
    (scrape_recipe_data doc).map (fun rd => rd.ingredients) = some [] := by
  simp only [nonIngredientMarkersPresent, Bool.and_eq_true,
    Option.isSome_iff_exists] at hm
  obtain ⟨⟨⟨⟨⟨hi, e1⟩, ⟨ri, e2⟩⟩, ⟨ai, e3⟩⟩, ⟨dsi, e4⟩⟩, ⟨tsi, e5⟩⟩ := hm
  have e6 : buildIngredients doc (findAllIdx isIngredientCard doc) [] = some [] := by
    rw [he]
    rfl
  rw [scrape_recipe_data_eq_some e1 e2 e3 e4 e5 e6]
  rfl

/-- C10 witness: a concrete page with markers and no ingredient block. -/
theorem no_ingredient_blocks_no_failure_witness :
    (scrape_recipe_data docEmptyComments).map (fun rd => rd.ingredients) =
      some [] :=
  no_ingredient_blocks_no_failure docEmptyComments (by decide) (by decide)

/-- C7 counterexample: a detail page with every expected marker present on
which `scrape_recipe_data` nevertheless returns an empty name (the h1 text is
whitespace only) and an ingredients mapping smaller than the number of
ingredient blocks (two blocks share a data-name), refuting the claim as
stated. -/
theorem recipe_fields_counterexample :
    allMarkersPresent docDupIngredients = true ∧
    scrape_recipe_data docDupIngredients =
      some ⟨"", "4.5", "42 avis publiés", "facile", "30 min",
            [("sucre", "200 g")]⟩ ∧
    (findAllIdx isIngredientCard docDupIngredients).length = 2 ∧
    ((scrape_recipe_data docDupIngredients).all fun rd =>
      (rd.name != "") && (rd.rate != "") && (rd.difficulty != "") &&
      (rd.timer != "") &&
      (rd.ingredients.length ==
        (findAllIdx isIngredientCard docDupIngredients).length)) = false := by
  decide

/-- C7 amended: on a detail page with every expected marker present, whose
marker element texts are non-empty after stripping and whose ingredient
blocks carry pairwise-distinct data-name attributes, `scrape_recipe_data`
succeeds with non-empty stripped name, rating, difficulty and timer, and an
ingredients mapping whose size equals the number of ingredient blocks. -/
theorem recipe_fields_amended (doc : Doc)
    (hm : allMarkersPresent doc = true)
    (hn : nonEmptyStripAt doc (h1Idx doc) = true)
    (hr : nonEmptyStripAt doc (ratingIdx doc) = true)
    (hd : nonEmptyStripAt doc (difficultySpanIdx doc) = true)
    (ht : nonEmptyStripAt doc (timerSpanIdx doc) = true)
    (hnd : ((findAllIdx isIngredientCard doc).map
      (fun i => (doc.getD i default).dataName)).Nodup) :
    (scrape_recipe_data doc).isSome = true ∧
    ((scrape_recipe_data doc).all fun rd =>
      (rd.name != "") && (rd.rate != "") && (rd.difficulty != "") &&
      (rd.timer != "") &&
      (rd.ingredients.length ==
        (findAllIdx isIngredientCard doc).length)) = true := by
  simp only [allMarkersPresent, nonIngredientMarkersPresent, Bool.and_eq_true,
    Option.isSome_iff_exists] at hm
  obtain ⟨⟨⟨⟨⟨⟨hi, e1⟩, ⟨ri, e2⟩⟩, ⟨ai, e3⟩⟩, ⟨dsi, e4⟩⟩, ⟨tsi, e5⟩⟩, hq⟩ := hm
  have hqall := List.all_eq_true.mp hq
  have hsome : ∀ i ∈ findAllIdx isIngredientCard doc,
      ((doc.getD i default).dataName).isSome = true ∧
      (quantityAt doc i).isSome = true := by
    intro i hmem
    refine ⟨?_, hqall i hmem⟩
    have hcard := mem_findAllIdx hmem
    simp only [isIngredientCard, Bool.and_eq_true] at hcard
    exact hcard.2
  obtain ⟨ing, e6⟩ := buildIngredients_isSome doc _ [] hsome
  have hdata := scrape_recipe_data_eq_some e1 e2 e3 e4 e5 e6
  have hlen := buildIngredients_len doc _ [] ing e6 hnd (by intro i _ q hq'; simp at hq')
  rw [hdata]
  simp only [Option.isSome_some, Option.all_some, Bool.and_eq_true, true_and]
  rw [e1] at hn
  rw [e2] at hr
  rw [e4] at hd
  rw [e5] at ht
  simp only [nonEmptyStripAt, Option.all_some] at hn hr hd ht
  refine ⟨⟨⟨⟨hn, hr⟩, hd⟩, ht⟩, ?_⟩
  simp only [List.length_nil, Nat.zero_add] at hlen
  simpa using hlen

/-- C7 amended witness: the well-formed concrete detail page. -/
theorem recipe_fields_amended_witness :
    (scrape_recipe_data detailDoc).isSome = true ∧
    ((scrape_recipe_data detailDoc).all fun rd =>
      (rd.name != "") && (rd.rate != "") && (rd.difficulty != "") &&
      (rd.timer != "") &&
      (rd.ingredients.length ==
        (findAllIdx isIngredientCard detailDoc).length)) = true :=
  recipe_fields_amended detailDoc (by decide) (by decide) (by decide) (by decide)
    (by decide) (by decide)

end Marmiton
